import Mathlib

/-!
Verification development for `synapse/config/database.py`: the database
connection configuration (`DatabaseConnectionConfig`) and the database
section of the main configuration (`DatabaseConfig`).

Python dictionaries with string keys are embedded as association lists in
insertion order (`Dict`); Python values appearing in the `args` mapping are
embedded as `Value`. Python exceptions are embedded as `PyError` and
fallible code returns `Except PyError _`.
-/

/-- Whether `needle` is a leading run of `hay`. -/
def leadChars : List Char → List Char → Bool
  | [], _ => true
  | _ :: _, [] => false
  | a :: as, b :: bs => a == b && leadChars as bs

/-- Whether `needle` occurs contiguously anywhere in `hay`. -/
def containsChars (needle : List Char) : List Char → Bool
  | [] => leadChars needle []
  | c :: rest => leadChars needle (c :: rest) || containsChars needle rest

/-- Python `s.startswith(p)`. -/
def strStartsWith (s p : String) : Bool := leadChars p.data s.data

/-- Python `s.endswith(p)`. -/
def strEndsWith (s p : String) : Bool := leadChars p.data.reverse s.data.reverse

/-- Substring test on strings, used to state facts about generated text. -/
def strContains (hay needle : String) : Bool :=
  containsChars needle.data hay.data

/-- Python exceptions raised by the embedded code. -/
inductive PyError where
  | configError (msg : String)
  | runtimeError (msg : String)
  | keyError (key : String)
  deriving DecidableEq, Repr

/-- Values stored in a database `args` mapping. `hook backend` stands for the
bound method `engine.on_new_connection` of the engine selected for `backend`. -/
inductive Value where
  | int (n : Int)
  | bool (b : Bool)
  | str (s : String)
  | hook (backend : String)
  deriving DecidableEq, Repr

/-- A Python `dict` with string keys, in insertion order. -/
abbrev Dict := List (String × Value)

/-- `d[k]` lookup: the value at the first (in a real dict, only) occurrence of `k`. -/
def dictLookup : Dict → String → Option Value
  | [], _ => none
  | kv :: rest, k => if kv.1 = k then some kv.2 else dictLookup rest k

/-- `d[k] = v`: replace the value at `k` in place, or append the new entry,
as a Python dict assignment does. -/
def dictInsert : Dict → String → Value → Dict
  | [], k, v => [(k, v)]
  | kv :: rest, k, v => if kv.1 = k then (k, v) :: rest else kv :: dictInsert rest k v

/-- `d.update(kvs)`: insert every entry of `kvs` into `d` in order. -/
def dictUpdate (d : Dict) (kvs : Dict) : Dict :=
  kvs.foldl (fun acc kv => dictInsert acc kv.1 kv.2) d

/-- The forced pooling parameters for the sqlite3 backend, in the order that
the literal dict `{"cp_min": 1, "cp_max": 1, "check_same_thread": False}`
supplies them (lines 46 and 101 of the source). -/
def sqliteForcedArgs : Dict :=
  [("cp_min", Value.int 1), ("cp_max", Value.int 1), ("check_same_thread", Value.bool false)]

/-- The normalization `db_config.setdefault("args", \x7b\x7d).update(...)` applied to
the sqlite3 `args` mapping, shared by `DatabaseConnectionConfig.__init__`
(lines 44-47) and `DatabaseConfig.read_config` (lines 99-102). -/
def sqliteNormalizeArgs (a : Dict) : Dict :=
  dictUpdate a sqliteForcedArgs

/-- The raw `db_config` mapping as it appears in the `database` section of the
main config: the value under `"name"` and the value under `"args"`, each
`none` when the key is missing. -/
structure RawDbConfig where
  name : Option String
  args : Option Dict
  deriving DecidableEq, Repr

/-- Modelled from the spec: the engine registry (`synapse.storage.engines`,
not under `src/`) maps a backend identifier to an immutable
`BackendEngineDescriptor` exposing a connect operation and a per-new-connection
hook; "exactly one descriptor exists per supported kind; selection is by
string identifier". -/
structure Engine where
  kind : String
  deriving DecidableEq, Repr

/-- Modelled from the spec: `create_engine(db_config)` resolves the descriptor
for the backend named by the config. Pure lookup, no side effects. -/
def create_engine (kind : String) : Engine := ⟨kind⟩

/-- Modelled from the spec: the engine's `onNewConnection` hook, "invoked once
per newly created connection (pooled or bare)". As a stored value it is the
opaque bound method reference. -/
def Engine.on_new_connection (e : Engine) : Value := Value.hook e.kind

/-- A raw driver connection as produced by `engine.module.connect(**db_params)`:
it records which backend module produced it and the keyword parameters the
connect call received. -/
structure Connection where
  backend : String
  params : Dict
  deriving DecidableEq, Repr

/-- `self.engine.module.connect(**db_params)` (line 81): the backend module's
raw connect call, receiving exactly the keyword parameters `db_params`. -/
def Engine.module_connect (e : Engine) (db_params : Dict) : Connection :=
  ⟨e.kind, db_params⟩

/-- A `twisted.enterprise.adbapi.ConnectionPool` as constructed at lines 63-65:
it records the driver module name, the `cp_reactor` handle (reactors are
identified by a number) and the keyword arguments it received. -/
structure Pool where
  driver : String
  cp_reactor : Nat
  args : Dict
  deriving DecidableEq, Repr

/-- The state of a `DatabaseConnectionConfig` object after `__init__`:
`config_name` and `config_args` are `self.config["name"]` and
`self.config["args"]` (the latter always present after a successful
construction), `pool` is the private `_pool` slot. -/
structure DatabaseConnectionConfig where
  name : String
  config_name : String
  config_args : Dict
  data_stores : List String
  engine : Engine
  pool : Option Pool
  deriving DecidableEq, Repr

/-- `DatabaseConnectionConfig.__init__` (lines 40-56).
Reading `db_config["name"]` with the key missing raises `KeyError`; a name
outside `("sqlite3", "psycopg2")` raises `ConfigError`; for sqlite3 the
`args` mapping is created if missing and updated with the forced pooling
parameters; `create_engine` resolves the engine and
`self.config["args"]["cp_openfun"] = self.engine.on_new_connection` stores the
hook (raising `KeyError` for a psycopg2 config without an `args` mapping);
`self._pool` starts as `None`. -/
def DatabaseConnectionConfig.init (name : String) (db_config : RawDbConfig)
    (data_stores : List String) : Except PyError DatabaseConnectionConfig :=
  match db_config.name with
  | none => .error (PyError.keyError "name")
  | some dbName =>
    if ¬ (dbName = "sqlite3" ∨ dbName = "psycopg2") then
      .error (PyError.configError ("Unsupported database type '" ++ dbName ++ "'"))
    else
      match (if dbName = "sqlite3"
             then some (sqliteNormalizeArgs (db_config.args.getD []))
             else db_config.args) with
      | none => .error (PyError.keyError "args")
      | some a =>
        .ok { name := name
              config_name := dbName
              config_args := dictInsert a "cp_openfun" (create_engine dbName).on_new_connection
              data_stores := data_stores
              engine := create_engine dbName
              pool := none }

/-- `DatabaseConnectionConfig.get_pool` (lines 58-67): if `self._pool is None`,
construct `adbapi.ConnectionPool(self.config["name"], cp_reactor=reactor,
**self.config.get("args", \x7b\x7d))` and store it; return the stored pool together
with the updated object state. -/
def DatabaseConnectionConfig.get_pool (c : DatabaseConnectionConfig) (reactor : Nat) :
    Pool × DatabaseConnectionConfig :=
  match c.pool with
  | some p => (p, c)
  | none =>
    let p : Pool := { driver := c.config_name, cp_reactor := reactor, args := c.config_args }
    (p, { c with pool := some p })

/-- The external pool collaborator: `adbapi.ConnectionPool(...)` may raise
(`PoolConstructionError` in the spec's taxonomy), so it is a function from the
constructor arguments to `Except`. -/
abbrev PoolMaker := String → Nat → Dict → Except PyError Pool

/-- The always-succeeding `adbapi.ConnectionPool` constructor. -/
def poolMakerOk : PoolMaker :=
  fun driver reactor args => .ok { driver := driver, cp_reactor := reactor, args := args }

/-- `DatabaseConnectionConfig.get_pool` (lines 58-67) with the external
`adbapi.ConnectionPool` constructor made explicit, so that a raising
constructor can be studied: when the constructor raises, the assignment
`self._pool = ...` never executes, the exception propagates and the object
state is unchanged. -/
def DatabaseConnectionConfig.get_pool_with (mk : PoolMaker) (c : DatabaseConnectionConfig)
    (reactor : Nat) : Except PyError Pool × DatabaseConnectionConfig :=
  match c.pool with
  | some p => (.ok p, c)
  | none =>
    match mk c.config_name reactor c.config_args with
    | .error e => (.error e, c)
    | .ok p => (.ok p, { c with pool := some p })

/-- `DatabaseConnectionConfig.make_conn` (lines 69-82): keep the entries of
`self.config.get("args", \x7b\x7d)` whose key does not start with `"cp_"` and pass
exactly those to `self.engine.module.connect`. -/
def DatabaseConnectionConfig.make_conn (c : DatabaseConnectionConfig) : Connection :=
  let db_params := c.config_args.filter (fun kv => ! strStartsWith kv.1 "cp_")
  c.engine.module_connect db_params

/-- Modelled from the spec: `Config.abspath` (defined in
`synapse/config/_base.py`, which is not under `src/`). The spec says CLI
database paths are "absolute-path resolved relative to the process's
configured base directory"; a falsy path (the empty string) and an already
absolute path are returned unchanged. -/
def resolveAbs (base_dir p : String) : String :=
  if p = "" then p
  else if strStartsWith p "/" then p
  else base_dir ++ "/" ++ p

/-- Modelled from the spec: `Config.abspath` lifted to an optional path;
`None` stays `None`. -/
def abspath (base_dir : String) : Option String → Option String
  | none => none
  | some p => some (resolveAbs base_dir p)

/-- `DatabaseConfig.set_databasepath` (lines 140-145): any path other than the
`":memory:"` sentinel is absolute-resolved; then, only for a sqlite3 config
and a non-`None` path, `self.database_config["args"]["database"]` is
assigned (raising `KeyError` when the `args` key is missing). -/
def DatabaseConfig.set_databasepath (database_config : RawDbConfig)
    (database_path : Option String) (base_dir : String) : Except PyError RawDbConfig :=
  let database_path :=
    if database_path = some ":memory:" then database_path
    else abspath base_dir database_path
  if database_config.name = some "sqlite3" then
    match database_path with
    | none => .ok database_config
    | some p =>
      match database_config.args with
      | none => .error (PyError.keyError "args")
      | some a => .ok { database_config with args := some (dictInsert a "database" (Value.str p)) }
  else .ok database_config

/-- `%s`-rendering of the optional backend name in the `read_config` error
message: Python renders a missing name (`None`) as `"None"`. -/
def pyStrOfName : Option String → String
  | none => "None"
  | some s => s

/-- `DatabaseConfig.read_config` (lines 88-106) restricted to its database
handling: `database` is `config.get("database")`, `database_path` is
`config.get("database_path")`. The `event_cache_size` line only parses an
unrelated size option and is not modelled. A missing `database` block defaults
to `\x7b"name": "sqlite3", "args": \x7b\x7d\x7d`; psycopg2 passes through; sqlite3 gets
the forced pooling parameters; any other (or missing) name raises
`RuntimeError`; finally `set_databasepath` applies the path override. -/
def DatabaseConfig.read_config (database : Option RawDbConfig)
    (database_path : Option String) (base_dir : String) : Except PyError RawDbConfig :=
  let database_config := database.getD { name := some "sqlite3", args := some [] }
  if database_config.name = some "psycopg2" then
    DatabaseConfig.set_databasepath database_config database_path base_dir
  else if database_config.name = some "sqlite3" then
    DatabaseConfig.set_databasepath
      { database_config with args := some (sqliteNormalizeArgs (database_config.args.getD [])) }
      database_path base_dir
  else
    .error (PyError.runtimeError
      ("Unsupported database type '" ++ pyStrOfName database_config.name ++ "'"))

/-- `os.path.join` for two POSIX components, as used at line 110. -/
def pyPathJoin (a b : String) : String :=
  if strStartsWith b "/" then b
  else if a = "" then b
  else if strEndsWith a "/" then a ++ b
  else a ++ "/" ++ b

/-- The default `database_conf` template string of
`DatabaseConfig.generate_config_section` (lines 111-120), with the
`%(database_path)s` interpolation applied. -/
def defaultDatabaseConf (database_path : String) : String :=
  "# The database engine name\n          name: \"sqlite3\"\n          # Arguments to pass to the engine\n          args:\n            # Path to the database\n            database: \"" ++ database_path ++ "\"\n            "

/-- The outer template string returned by `DatabaseConfig.generate_config_section`
(lines 124-135), with the `%(database_conf)s` interpolation applied. -/
def databaseSectionText (database_conf : String) : String :=
  "        ## Database ##\n\n        database:\n          " ++ database_conf ++ "\n        # Number of events to cache in memory.\n        #\n        #event_cache_size: 10K\n        "

/-- `DatabaseConfig.generate_config_section` (lines 108-135) in the case of no
caller-supplied `database_conf` (the `if not database_conf` branch): the
default points the sqlite3 database at
`os.path.join(data_dir_path, "homeserver.db")`. The other branch only
re-renders a caller-supplied mapping through the external `yaml.dump` and is
not modelled. -/
def DatabaseConfig.generate_config_section_default (data_dir_path : String) : String :=
  databaseSectionText (defaultDatabaseConf (pyPathJoin data_dir_path "homeserver.db"))

/-- Whether a computation raised `ConfigError` (as opposed to succeeding or
raising a different exception class). -/
def raisesConfigError {α : Type} : Except PyError α → Bool
  | .error (.configError _) => true
  | _ => false

/-- An always-raising `adbapi.ConnectionPool` constructor: the external
pool/driver collaborator failing (the spec's `PoolConstructionError`). -/
def failingPoolMaker : PoolMaker :=
  fun _ _ _ => .error (PyError.runtimeError "pool construction failed")

/-- A caller-supplied sqlite3 `args` mapping with conflicting pool sizes
(the spec's `(5, 5)` example) and a database path. -/
def exampleArgs : Dict :=
  [("cp_min", Value.int 5), ("cp_max", Value.int 5),
   ("database", Value.str "/data/homeserver.db")]

/-- The `db_config` mapping for `exampleArgs`. -/
def exampleRaw : RawDbConfig := ⟨some "sqlite3", some exampleArgs⟩

/-- The object state `DatabaseConnectionConfig("main", exampleRaw, ["main"])`
leaves behind. -/
def exampleConn : DatabaseConnectionConfig :=
  { name := "main"
    config_name := "sqlite3"
    config_args := dictInsert (sqliteNormalizeArgs exampleArgs) "cp_openfun" (Value.hook "sqlite3")
    data_stores := ["main"]
    engine := ⟨"sqlite3"⟩
    pool := none }

/-- Program counter of one caller inside the body of `get_pool` (lines 62-67),
one value per atomic statement: `ready` is about to run the `if self._pool is
None` test (line 62), `creating` has observed `None` and is about to construct
a pool and assign `self._pool` (lines 63-65), `returning` is about to run
`return self._pool` (line 67), and `finished r` has returned `r`. Pools are
identified by their construction number. -/
inductive RacePC where
  | ready
  | creating
  | returning
  | finished (ret : Option Nat)
  deriving DecidableEq, Repr

/-- Shared state of two callers racing through `get_pool` on the same entity:
the `_pool` slot, how many pool constructions have executed, and each caller's
program counter. -/
structure RaceState where
  slot : Option Nat
  constructions : Nat
  pc1 : RacePC
  pc2 : RacePC
  deriving DecidableEq, Repr

/-- One atomic statement of `get_pool` executed by one caller: given the shared
slot and construction count and the caller's program counter, produce the new
slot, count and program counter. This is the statement-level small-step
semantics of lines 62-67; note the `ready` test and the `creating` assignment
are separate steps, exactly as they are separate statements in the source. -/
def raceThreadStep (slot : Option Nat) (constructions : Nat) : RacePC → Option Nat × Nat × RacePC
  | .ready =>
    match slot with
    | some _ => (slot, constructions, .returning)
    | none => (slot, constructions, .creating)
  | .creating => (some (constructions + 1), constructions + 1, .returning)
  | .returning => (slot, constructions, .finished slot)
  | .finished r => (slot, constructions, .finished r)

/-- Execute one atomic step of caller 1 (`t = false`) or caller 2 (`t = true`). -/
def raceStep (s : RaceState) (t : Bool) : RaceState :=
  if t then
    let r := raceThreadStep s.slot s.constructions s.pc2
    { s with slot := r.1, constructions := r.2.1, pc2 := r.2.2 }
  else
    let r := raceThreadStep s.slot s.constructions s.pc1
    { s with slot := r.1, constructions := r.2.1, pc1 := r.2.2 }

/-- Run a schedule of interleaved steps of two callers of `get_pool`, starting
from a freshly constructed entity (`_pool is None`, no constructions, both
callers about to enter). -/
def raceRun (sched : List Bool) : RaceState :=
  sched.foldl raceStep { slot := none, constructions := 0, pc1 := .ready, pc2 := .ready }


/-! ## Dictionary lemmas -/

theorem dictLookup_dictInsert_self (d : Dict) (k : String) (v : Value) :
    dictLookup (dictInsert d k v) k = some v := by
  induction d with
  | nil => simp [dictInsert, dictLookup]
  | cons kv rest ih =>
    by_cases hk : kv.1 = k
    · simp [dictInsert, dictLookup, hk]
    · simp [dictInsert, dictLookup, hk, ih]

theorem dictLookup_dictInsert_ne (d : Dict) (k k2 : String) (v : Value) (h : k2 ≠ k) :
    dictLookup (dictInsert d k v) k2 = dictLookup d k2 := by
  induction d with
  | nil => simp [dictInsert, dictLookup, Ne.symm h]
  | cons kv rest ih =>
    by_cases hk : kv.1 = k
    · simp [dictInsert, dictLookup, hk, Ne.symm h]
    · by_cases hk2 : kv.1 = k2 <;> simp [dictInsert, dictLookup, hk, hk2, h, ih]

theorem sqliteNormalizeArgs_eq (a : Dict) :
    sqliteNormalizeArgs a =
      dictInsert (dictInsert (dictInsert a "cp_min" (Value.int 1)) "cp_max" (Value.int 1))
        "check_same_thread" (Value.bool false) := rfl

theorem sqliteNormalizeArgs_cp_min (a : Dict) :
    dictLookup (sqliteNormalizeArgs a) "cp_min" = some (Value.int 1) := by
  rw [sqliteNormalizeArgs_eq, dictLookup_dictInsert_ne _ _ _ _ (by decide),
    dictLookup_dictInsert_ne _ _ _ _ (by decide)]
  exact dictLookup_dictInsert_self ..

theorem sqliteNormalizeArgs_cp_max (a : Dict) :
    dictLookup (sqliteNormalizeArgs a) "cp_max" = some (Value.int 1) := by
  rw [sqliteNormalizeArgs_eq, dictLookup_dictInsert_ne _ _ _ _ (by decide)]
  exact dictLookup_dictInsert_self ..

theorem sqliteNormalizeArgs_thread (a : Dict) :
    dictLookup (sqliteNormalizeArgs a) "check_same_thread" = some (Value.bool false) := by
  rw [sqliteNormalizeArgs_eq]
  exact dictLookup_dictInsert_self ..

theorem sqliteNormalizeArgs_preserves (a : Dict) (k : String)
    (h1 : k ≠ "cp_min") (h2 : k ≠ "cp_max") (h3 : k ≠ "check_same_thread") :
    dictLookup (sqliteNormalizeArgs a) k = dictLookup a k := by
  rw [sqliteNormalizeArgs_eq, dictLookup_dictInsert_ne _ _ _ _ h3,
    dictLookup_dictInsert_ne _ _ _ _ h2, dictLookup_dictInsert_ne _ _ _ _ h1]

theorem dictLookup_filter_of_true (p : String → Bool) (d : Dict) (k : String)
    (hk : p k = true) :
    dictLookup (d.filter (fun kv => p kv.1)) k = dictLookup d k := by
  induction d with
  | nil => rfl
  | cons kv rest ih =>
    by_cases h1 : kv.1 = k
    · simp [List.filter_cons, h1, hk, dictLookup, ih]
    · cases h2 : p kv.1 <;> simp [List.filter_cons, h1, h2, dictLookup, ih]

theorem dictLookup_filter_of_false (p : String → Bool) (d : Dict) (k : String)
    (hk : p k = false) :
    dictLookup (d.filter (fun kv => p kv.1)) k = none := by
  induction d with
  | nil => rfl
  | cons kv rest ih =>
    by_cases h1 : kv.1 = k
    · simp [List.filter_cons, h1, hk, dictLookup, ih]
    · cases h2 : p kv.1 <;> simp [List.filter_cons, h1, h2, dictLookup, ih]

/-! ## Structural lemmas about construction and configuration reading -/

theorem init_sqlite_eq (n : String) (args : Option Dict) (ds : List String) :
    DatabaseConnectionConfig.init n ⟨some "sqlite3", args⟩ ds =
      .ok { name := n
            config_name := "sqlite3"
            config_args :=
              dictInsert (sqliteNormalizeArgs (args.getD [])) "cp_openfun" (Value.hook "sqlite3")
            data_stores := ds
            engine := ⟨"sqlite3"⟩
            pool := none } := rfl

theorem init_psycopg2_eq (n : String) (a : Dict) (ds : List String) :
    DatabaseConnectionConfig.init n ⟨some "psycopg2", some a⟩ ds =
      .ok { name := n
            config_name := "psycopg2"
            config_args := dictInsert a "cp_openfun" (Value.hook "psycopg2")
            data_stores := ds
            engine := ⟨"psycopg2"⟩
            pool := none } := rfl

theorem init_psycopg2_noargs (n : String) (ds : List String) :
    DatabaseConnectionConfig.init n ⟨some "psycopg2", none⟩ ds =
      .error (PyError.keyError "args") := rfl

theorem init_unsupported (n nm : String) (args : Option Dict) (ds : List String)
    (h1 : nm ≠ "sqlite3") (h2 : nm ≠ "psycopg2") :
    DatabaseConnectionConfig.init n ⟨some nm, args⟩ ds =
      .error (PyError.configError ("Unsupported database type '" ++ nm ++ "'")) := by
  simp [DatabaseConnectionConfig.init, h1, h2]

theorem init_ok_shape (n : String) (dc : RawDbConfig) (ds : List String)
    (c : DatabaseConnectionConfig)
    (h : DatabaseConnectionConfig.init n dc ds = .ok c) :
    c.pool = none ∧ c.engine = create_engine c.config_name ∧
    dictLookup c.config_args "cp_openfun" = some c.engine.on_new_connection := by
  obtain ⟨nm, args⟩ := dc
  cases nm with
  | none => simp [DatabaseConnectionConfig.init] at h
  | some dbName =>
    by_cases hs : dbName = "sqlite3"
    · subst hs
      rw [init_sqlite_eq] at h
      injection h with h
      subst h
      exact ⟨rfl, rfl, dictLookup_dictInsert_self ..⟩
    · by_cases hp : dbName = "psycopg2"
      · subst hp
        cases args with
        | none => rw [init_psycopg2_noargs] at h; simp at h
        | some a =>
          rw [init_psycopg2_eq] at h
          injection h with h
          subst h
          exact ⟨rfl, rfl, dictLookup_dictInsert_self ..⟩
      · rw [init_unsupported n dbName args ds hs hp] at h; simp at h

theorem read_config_sqlite_eq (args : Option Dict) (bd : String) :
    DatabaseConfig.read_config (some ⟨some "sqlite3", args⟩) none bd =
      .ok ⟨some "sqlite3", some (sqliteNormalizeArgs (args.getD []))⟩ := rfl

theorem read_config_default_eq (bd : String) :
    DatabaseConfig.read_config none none bd =
      .ok ⟨some "sqlite3", some (sqliteNormalizeArgs [])⟩ := rfl

theorem read_config_unsupported (nm : String) (args : Option Dict) (dp : Option String)
    (bd : String) (h1 : nm ≠ "sqlite3") (h2 : nm ≠ "psycopg2") :
    DatabaseConfig.read_config (some ⟨some nm, args⟩) dp bd =
      .error (PyError.runtimeError ("Unsupported database type '" ++ nm ++ "'")) := by
  simp [DatabaseConfig.read_config, h1, h2, pyStrOfName]

theorem read_config_missing_name (args : Option Dict) (dp : Option String) (bd : String) :
    DatabaseConfig.read_config (some ⟨none, args⟩) dp bd =
      .error (PyError.runtimeError "Unsupported database type 'None'") := by
  simp [DatabaseConfig.read_config, pyStrOfName]

/-! ## Claims -/

/-- Claim C1: for every configuration whose backend identifier is sqlite3,
normalization — both in `DatabaseConnectionConfig` construction and in
`DatabaseConfig.read_config` — forces the pooling parameters to
single-connection, non-thread-shared mode (`cp_min = 1`, `cp_max = 1`,
`check_same_thread` forced to `False`), overwriting any conflicting
caller-supplied values for exactly those keys, while every other
caller-supplied entry of `args` is preserved (in construction, the reserved
hook key `cp_openfun` is additionally bound by the separate hook-binding
step). -/
theorem claim_C1_forced_pooling (a : Dict) (n bd : String) (ds : List String)
    (c : DatabaseConnectionConfig) (d : RawDbConfig)
    (hc : DatabaseConnectionConfig.init n ⟨some "sqlite3", some a⟩ ds = .ok c)
    (hd : DatabaseConfig.read_config (some ⟨some "sqlite3", some a⟩) none bd = .ok d) :
    (dictLookup c.config_args "cp_min" = some (Value.int 1) ∧
     dictLookup c.config_args "cp_max" = some (Value.int 1) ∧
     dictLookup c.config_args "check_same_thread" = some (Value.bool false)) ∧
    (∀ k, k ≠ "cp_min" → k ≠ "cp_max" → k ≠ "check_same_thread" → k ≠ "cp_openfun" →
      dictLookup c.config_args k = dictLookup a k) ∧
    (d.args = some (sqliteNormalizeArgs a) ∧
     dictLookup (sqliteNormalizeArgs a) "cp_min" = some (Value.int 1) ∧
     dictLookup (sqliteNormalizeArgs a) "cp_max" = some (Value.int 1) ∧
     dictLookup (sqliteNormalizeArgs a) "check_same_thread" = some (Value.bool false)) ∧
    (∀ k, k ≠ "cp_min" → k ≠ "cp_max" → k ≠ "check_same_thread" →
      dictLookup (sqliteNormalizeArgs a) k = dictLookup a k) := by
  rw [init_sqlite_eq] at hc
  injection hc with hc
  subst hc
  rw [read_config_sqlite_eq] at hd
  injection hd with hd
  subst hd
  refine ⟨⟨?_, ?_, ?_⟩, ?_, ⟨rfl, ?_, ?_, ?_⟩, ?_⟩
  · rw [dictLookup_dictInsert_ne _ _ _ _ (by decide)]
    exact sqliteNormalizeArgs_cp_min a
  · rw [dictLookup_dictInsert_ne _ _ _ _ (by decide)]
    exact sqliteNormalizeArgs_cp_max a
  · rw [dictLookup_dictInsert_ne _ _ _ _ (by decide)]
    exact sqliteNormalizeArgs_thread a
  · intro k h1 h2 h3 h4
    rw [dictLookup_dictInsert_ne _ _ _ _ h4]
    exact sqliteNormalizeArgs_preserves a k h1 h2 h3
  · exact sqliteNormalizeArgs_cp_min a
  · exact sqliteNormalizeArgs_cp_max a
  · exact sqliteNormalizeArgs_thread a
  · intro k h1 h2 h3
    exact sqliteNormalizeArgs_preserves a k h1 h2 h3

theorem claim_C1_witness :
    dictLookup exampleConn.config_args "cp_min" = some (Value.int 1) ∧
    dictLookup exampleConn.config_args "cp_max" = some (Value.int 1) ∧
    dictLookup exampleConn.config_args "check_same_thread" = some (Value.bool false) ∧
    dictLookup exampleConn.config_args "database" = some (Value.str "/data/homeserver.db") := by
  have h := claim_C1_forced_pooling exampleArgs "main" "/base" ["main"] exampleConn
    ⟨some "sqlite3", some (sqliteNormalizeArgs exampleArgs)⟩ rfl rfl
  refine ⟨h.1.1, h.1.2.1, h.1.2.2, ?_⟩
  rw [h.2.1 "database" (by decide) (by decide) (by decide) (by decide)]
  rfl

/-- Claim C2: the pool of a `DatabaseConnectionConfig` is absent (`None`) after
construction and is created at most once: the first call to `get_pool`
constructs a pool from the config, and every subsequent sequential call
returns that same pool object unchanged without constructing another,
regardless of the reactor argument passed to later calls. -/
theorem claim_C2_lazy_pool (n : String) (dc : RawDbConfig) (ds : List String)
    (c : DatabaseConnectionConfig)
    (h : DatabaseConnectionConfig.init n dc ds = .ok c) (r1 r2 : Nat) :
    c.pool = none ∧
    (c.get_pool r1).2.pool = some (c.get_pool r1).1 ∧
    ((c.get_pool r1).2.get_pool r2).1 = (c.get_pool r1).1 ∧
    ((c.get_pool r1).2.get_pool r2).2 = (c.get_pool r1).2 := by
  obtain ⟨hpool, -, -⟩ := init_ok_shape n dc ds c h
  refine ⟨hpool, ?_, ?_, ?_⟩ <;> simp [DatabaseConnectionConfig.get_pool, hpool]

theorem claim_C2_witness :
    exampleConn.pool = none ∧
    (exampleConn.get_pool 0).2.pool = some (exampleConn.get_pool 0).1 ∧
    ((exampleConn.get_pool 0).2.get_pool 1).1 = (exampleConn.get_pool 0).1 ∧
    ((exampleConn.get_pool 0).2.get_pool 1).2 = (exampleConn.get_pool 0).2 :=
  claim_C2_lazy_pool "main" exampleRaw ["main"] exampleConn rfl 0 1

/-- Claim C4: after every successful `DatabaseConnectionConfig` construction,
`args["cp_openfun"]` is bound to the resolved engine's `on_new_connection`
hook, regardless of any caller-supplied value for that key, and no subsequent
`get_pool` call changes the `args` mapping or the engine (and `make_conn` is
read-only by construction). -/
theorem claim_C4_openfun_binding (n : String) (dc : RawDbConfig) (ds : List String)
    (c : DatabaseConnectionConfig)
    (h : DatabaseConnectionConfig.init n dc ds = .ok c) :
    dictLookup c.config_args "cp_openfun" = some c.engine.on_new_connection ∧
    c.engine = create_engine c.config_name ∧
    (∀ r : Nat, (c.get_pool r).2.config_args = c.config_args ∧
      (c.get_pool r).2.engine = c.engine) := by
  obtain ⟨-, hengine, hhook⟩ := init_ok_shape n dc ds c h
  refine ⟨hhook, hengine, ?_⟩
  intro r
  cases hp : c.pool <;> simp [DatabaseConnectionConfig.get_pool, hp]

theorem claim_C4_witness :
    dictLookup exampleConn.config_args "cp_openfun"
      = some exampleConn.engine.on_new_connection ∧
    (exampleConn.get_pool 5).2.config_args = exampleConn.config_args := by
  have h := claim_C4_openfun_binding "main" exampleRaw ["main"] exampleConn rfl
  exact ⟨h.1, (h.2.2 5).1⟩

/-- Claim C3 counterexample: `DatabaseConfig.read_config` with the unsupported
backend identifier `"mysql"` fails with `RuntimeError`, not `ConfigError`, and
`DatabaseConnectionConfig` construction with a missing backend identifier
fails with `KeyError`, not `ConfigError`. -/
theorem claim_C3_counterexample :
    raisesConfigError (DatabaseConfig.read_config (some ⟨some "mysql", some []⟩) none "/base")
      = false ∧
    DatabaseConfig.read_config (some ⟨some "mysql", some []⟩) none "/base"
      = .error (PyError.runtimeError "Unsupported database type 'mysql'") ∧
    raisesConfigError (DatabaseConnectionConfig.init "main" ⟨none, some []⟩ []) = false ∧
    DatabaseConnectionConfig.init "main" ⟨none, some []⟩ []
      = .error (PyError.keyError "name") :=
  ⟨rfl, rfl, rfl, rfl⟩

/-- Claim C3 as amended: for every backend identifier string not in
`("sqlite3", "psycopg2")`, `DatabaseConnectionConfig` construction fails with
`ConfigError` when the identifier is present, and with `KeyError` when the
`name` key is missing; `DatabaseConfig.read_config` with an unsupported or
missing identifier fails fatally with `RuntimeError` (not `ConfigError`);
in no case is there a silent fallback. -/
theorem claim_C3_amended (n nm bd : String) (args : Option Dict) (ds : List String)
    (dp : Option String) (h1 : nm ≠ "sqlite3") (h2 : nm ≠ "psycopg2") :
    DatabaseConnectionConfig.init n ⟨some nm, args⟩ ds
      = .error (PyError.configError ("Unsupported database type '" ++ nm ++ "'")) ∧
    DatabaseConfig.read_config (some ⟨some nm, args⟩) dp bd
      = .error (PyError.runtimeError ("Unsupported database type '" ++ nm ++ "'")) ∧
    DatabaseConnectionConfig.init n ⟨none, args⟩ ds = .error (PyError.keyError "name") ∧
    DatabaseConfig.read_config (some ⟨none, args⟩) dp bd
      = .error (PyError.runtimeError "Unsupported database type 'None'") := by
  refine ⟨init_unsupported n nm args ds h1 h2, read_config_unsupported nm args dp bd h1 h2,
    rfl, read_config_missing_name args dp bd⟩

theorem claim_C3_amended_witness :
    DatabaseConnectionConfig.init "main" ⟨some "mysql", some []⟩ []
      = .error (PyError.configError "Unsupported database type 'mysql'") ∧
    DatabaseConfig.read_config (some ⟨some "mysql", some []⟩) none "/base"
      = .error (PyError.runtimeError "Unsupported database type 'mysql'") ∧
    DatabaseConnectionConfig.init "main" ⟨none, some []⟩ []
      = .error (PyError.keyError "name") ∧
    DatabaseConfig.read_config (some ⟨none, some []⟩) none "/base"
      = .error (PyError.runtimeError "Unsupported database type 'None'") :=
  claim_C3_amended "main" "mysql" "/base" (some []) [] none (by decide) (by decide)

/-- Claim C5: for every `args` mapping, the parameter set `make_conn` passes to
the engine's raw connect call is exactly the entries of `args` whose keys do
not start with `"cp_"`; in particular `cp_min`, `cp_max` and `cp_openfun`
never reach the raw driver connect call, and each call delegates to the
resolved engine's connect on the filtered parameters. -/
theorem claim_C5_bare_connection (c : DatabaseConnectionConfig) :
    c.make_conn
      = c.engine.module_connect (c.config_args.filter (fun kv => ! strStartsWith kv.1 "cp_")) ∧
    (∀ k, strStartsWith k "cp_" = true → dictLookup c.make_conn.params k = none) ∧
    (∀ k, strStartsWith k "cp_" = false →
      dictLookup c.make_conn.params k = dictLookup c.config_args k) ∧
    dictLookup c.make_conn.params "cp_min" = none ∧
    dictLookup c.make_conn.params "cp_max" = none ∧
    dictLookup c.make_conn.params "cp_openfun" = none := by
  refine ⟨rfl, ?_, ?_, ?_, ?_, ?_⟩
  · intro k hk
    exact dictLookup_filter_of_false (fun s => ! strStartsWith s "cp_") c.config_args k
      (by simp [hk])
  · intro k hk
    exact dictLookup_filter_of_true (fun s => ! strStartsWith s "cp_") c.config_args k
      (by simp [hk])
  · exact dictLookup_filter_of_false (fun s => ! strStartsWith s "cp_") c.config_args "cp_min" rfl
  · exact dictLookup_filter_of_false (fun s => ! strStartsWith s "cp_") c.config_args "cp_max" rfl
  · exact dictLookup_filter_of_false (fun s => ! strStartsWith s "cp_") c.config_args
      "cp_openfun" rfl

theorem claim_C5_witness :
    dictLookup exampleConn.make_conn.params "cp_min" = none ∧
    dictLookup exampleConn.make_conn.params "database"
      = dictLookup exampleConn.config_args "database" :=
  ⟨(claim_C5_bare_connection exampleConn).2.2.2.1,
   (claim_C5_bare_connection exampleConn).2.2.1 "database" rfl⟩

/-- Claim C6: `set_databasepath` with a non-`None` database path overwrites
`args["database"]` with the absolute-resolved path when the configured backend
is sqlite3, stores the `":memory:"` sentinel verbatim without resolution,
leaves a psycopg2 configuration unchanged without error, and leaves the
configuration unchanged when the path is `None`. -/
theorem claim_C6_path_override (dbc : RawDbConfig) (a : Dict) (base p : String)
    (ha : dbc.args = some a) :
    (dbc.name = some "sqlite3" → p ≠ ":memory:" →
      DatabaseConfig.set_databasepath dbc (some p) base
        = .ok { dbc with args := some (dictInsert a "database" (Value.str (resolveAbs base p))) }) ∧
    (dbc.name = some "sqlite3" →
      DatabaseConfig.set_databasepath dbc (some ":memory:") base
        = .ok { dbc with args := some (dictInsert a "database" (Value.str ":memory:")) }) ∧
    (dbc.name = some "psycopg2" →
      DatabaseConfig.set_databasepath dbc (some p) base = .ok dbc) ∧
    DatabaseConfig.set_databasepath dbc none base = .ok dbc := by
  refine ⟨?_, ?_, ?_, ?_⟩
  · intro hn hp
    simp [DatabaseConfig.set_databasepath, hn, ha, hp, abspath]
  · intro hn
    simp [DatabaseConfig.set_databasepath, hn, ha]
  · intro hn
    simp [DatabaseConfig.set_databasepath, hn]
  · by_cases hn : dbc.name = some "sqlite3" <;>
      simp [DatabaseConfig.set_databasepath, hn, abspath]

theorem claim_C6_witness :
    DatabaseConfig.set_databasepath ⟨some "sqlite3", some []⟩ (some "new.db") "/base"
      = .ok ⟨some "sqlite3", some [("database", Value.str "/base/new.db")]⟩ ∧
    DatabaseConfig.set_databasepath ⟨some "sqlite3", some []⟩ (some ":memory:") "/base"
      = .ok ⟨some "sqlite3", some [("database", Value.str ":memory:")]⟩ ∧
    DatabaseConfig.set_databasepath ⟨some "psycopg2", some []⟩ (some "new.db") "/base"
      = .ok ⟨some "psycopg2", some []⟩ ∧
    DatabaseConfig.set_databasepath ⟨some "sqlite3", some []⟩ none "/base"
      = .ok ⟨some "sqlite3", some []⟩ := by
  have h1 := claim_C6_path_override ⟨some "sqlite3", some []⟩ [] "/base" "new.db" rfl
  have h2 := claim_C6_path_override ⟨some "psycopg2", some []⟩ [] "/base" "new.db" rfl
  exact ⟨h1.1 rfl (by decide), h1.2.1 rfl, h2.2.2.1 rfl, h1.2.2.2⟩

/-- Claim C7: if pool construction inside `get_pool` raises, the exception
propagates to the caller and the entity's pool slot stays `None` (object state
unchanged), so a subsequent call attempts construction again and succeeds when
the collaborator does — a failed attempt does not count as already
constructed. -/
theorem claim_C7_pool_failure (mk mk2 : PoolMaker) (c : DatabaseConnectionConfig)
    (r r2 : Nat) (e : PyError) (p : Pool)
    (hpool : c.pool = none)
    (hmk : mk c.config_name r c.config_args = .error e)
    (hmk2 : mk2 c.config_name r2 c.config_args = .ok p) :
    DatabaseConnectionConfig.get_pool_with mk c r = (.error e, c) ∧
    DatabaseConnectionConfig.get_pool_with mk2 c r2 = (.ok p, { c with pool := some p }) := by
  constructor <;> simp [DatabaseConnectionConfig.get_pool_with, hpool, hmk, hmk2]

theorem claim_C7_witness :
    DatabaseConnectionConfig.get_pool_with failingPoolMaker exampleConn 0
      = (.error (PyError.runtimeError "pool construction failed"), exampleConn) ∧
    DatabaseConnectionConfig.get_pool_with poolMakerOk exampleConn 1
      = (.ok ⟨"sqlite3", 1, exampleConn.config_args⟩,
         { exampleConn with pool := some ⟨"sqlite3", 1, exampleConn.config_args⟩ }) :=
  claim_C7_pool_failure failingPoolMaker poolMakerOk exampleConn 0 1
    (PyError.runtimeError "pool construction failed")
    ⟨"sqlite3", 1, exampleConn.config_args⟩ rfl rfl rfl

/-- Claim C8 counterexample: for an sqlite3 configuration, the forced
`check_same_thread` flag DOES appear among the parameters `make_conn` passes
to the raw driver connect call (only keys starting with `"cp_"` are
stripped). -/
theorem claim_C8_counterexample :
    (DatabaseConnectionConfig.init "main" ⟨some "sqlite3", some []⟩ []).map
        (fun c => dictLookup c.make_conn.params "check_same_thread")
      = .ok (some (Value.bool false)) ∧
    Except.ok (some (Value.bool false)) ≠ (.ok none : Except PyError (Option Value)) := by
  exact ⟨rfl, by simp⟩

/-- Claim C8 as amended: `make_conn` strips exactly the `cp_`-prefixed
pooling-control parameters (`cp_min`, `cp_max`, `cp_openfun`) from `args`
before the raw connect call; the thread-affinity flag `check_same_thread` is
not `cp_`-prefixed and does appear, with its forced value `False`, among the
parameters passed to the raw driver connect call for an sqlite3
configuration. -/
theorem claim_C8_amended (n : String) (a : Dict) (ds : List String)
    (c : DatabaseConnectionConfig)
    (h : DatabaseConnectionConfig.init n ⟨some "sqlite3", some a⟩ ds = .ok c) :
    dictLookup c.make_conn.params "cp_min" = none ∧
    dictLookup c.make_conn.params "cp_max" = none ∧
    dictLookup c.make_conn.params "cp_openfun" = none ∧
    dictLookup c.make_conn.params "check_same_thread" = some (Value.bool false) := by
  rw [init_sqlite_eq] at h
  injection h with h
  subst h
  refine ⟨(claim_C5_bare_connection _).2.2.2.1, (claim_C5_bare_connection _).2.2.2.2.1,
    (claim_C5_bare_connection _).2.2.2.2.2, ?_⟩
  rw [(claim_C5_bare_connection _).2.2.1 "check_same_thread" rfl,
    dictLookup_dictInsert_ne _ _ _ _ (by decide)]
  exact sqliteNormalizeArgs_thread a

theorem claim_C8_amended_witness :
    dictLookup exampleConn.make_conn.params "cp_min" = none ∧
    dictLookup exampleConn.make_conn.params "cp_max" = none ∧
    dictLookup exampleConn.make_conn.params "cp_openfun" = none ∧
    dictLookup exampleConn.make_conn.params "check_same_thread" = some (Value.bool false) :=
  claim_C8_amended "main" exampleArgs ["main"] exampleConn rfl

/-- Claim C9 counterexample: `read_config` with no `database` block synthesizes
`\x7b"name": "sqlite3", "args": \x7b\x7d\x7d` and then normalizes it, so the resulting
entry's `args` contains no `"database"` path at all — in particular not
`<dataDirPath>/homeserver.db`. -/
theorem claim_C9_counterexample :
    DatabaseConfig.read_config none none "/var/lib/app"
      = .ok ⟨some "sqlite3", some (sqliteNormalizeArgs [])⟩ ∧
    (DatabaseConfig.read_config none none "/var/lib/app").map
        (fun d => dictLookup (d.args.getD []) "database") = .ok none :=
  ⟨rfl, rfl⟩

set_option maxRecDepth 100000 in
/-- Claim C9 as amended: when the input configuration contains no `database`
block, `read_config` synthesizes a single sqlite3 entry with empty `args`
(then forced pooling parameters) and no database path; the well-known path
`<dataDirPath>/homeserver.db` appears only in the example configuration text
produced by `generate_config_section` when no database config is supplied. -/
theorem claim_C9_amended (bd : String) :
    DatabaseConfig.read_config none none bd
      = .ok ⟨some "sqlite3", some (sqliteNormalizeArgs [])⟩ ∧
    dictLookup (sqliteNormalizeArgs []) "database" = none ∧
    pyPathJoin "/var/lib/app" "homeserver.db" = "/var/lib/app/homeserver.db" ∧
    strContains (DatabaseConfig.generate_config_section_default "/var/lib/app")
      "/var/lib/app/homeserver.db" = true := by
  refine ⟨read_config_default_eq bd, rfl, rfl, ?_⟩
  rfl

/-- Claim C10 counterexample: `get_pool`'s check-then-create is unguarded, so
under a statement-level interleaving of two first calls (both run the
`_pool is None` test before either assigns) two pool constructions occur and
the two callers return different pools. -/
theorem claim_C10_counterexample :
    (raceRun [false, true, false, false, true, true]).constructions = 2 ∧
    (raceRun [false, true, false, false, true, true]).pc1 = RacePC.finished (some 1) ∧
    (raceRun [false, true, false, false, true, true]).pc2 = RacePC.finished (some 2) :=
  ⟨rfl, rfl, rfl⟩

/-- Claim C10 as amended: `get_pool` performs an unguarded check-then-create
with no serialization by the entity itself; when two first calls are
serialized (either caller runs all of its steps before the other starts),
exactly one pool construction occurs and both callers receive that same pool,
but concurrent first-call races are not protected (see the counterexample
interleaving). -/
theorem claim_C10_amended :
    ((raceRun [false, false, false, true, true, true]).constructions = 1 ∧
     (raceRun [false, false, false, true, true, true]).pc1 = RacePC.finished (some 1) ∧
     (raceRun [false, false, false, true, true, true]).pc2 = RacePC.finished (some 1)) ∧
    ((raceRun [true, true, true, false, false, false]).constructions = 1 ∧
     (raceRun [true, true, true, false, false, false]).pc1 = RacePC.finished (some 1) ∧
     (raceRun [true, true, true, false, false, false]).pc2 = RacePC.finished (some 1)) :=
  ⟨⟨rfl, rfl, rfl⟩, ⟨rfl, rfl, rfl⟩⟩
